import Mathlib

/-!
Verification of the expense-tracker ledger core (`src/finance_app.py`).

A shallow embedding of the ledger document and the mutation/aggregation
operations of `finance_app.py`.  The persisted document is
`{wallet_balance, expenses, debts}`; amounts are modelled as exact
rationals (the spec's `decimal`).  The Streamlit form handlers are
embedded as pure functions on the document:

* the `entry_form` submit handler (lines 59–81) becomes `addExpense` /
  `addDebt`; its guard `amount > 0 and desc` becomes the `InvalidInput`
  branch (in the UI a failed guard silently skips the mutation, so the
  totalised `Op.apply` below leaves the document unchanged);
* the `edit_form` submit handler (lines 169–188) becomes `editExpense` /
  `editDebt`; an out-of-range Python list index raises `IndexError`
  before any mutation is saved, which we model as `Except.error .NotFound`;
* the Confirm-Delete handler (lines 193–205) becomes `deleteExpense` /
  `deleteDebt`;
* the dashboard aggregation (lines 98–101) becomes `total_spent`,
  `to_receive`, `to_pay`, `net_position` and the pure `summarize`;
* `load_data` (lines 13–23) is embedded over an abstract store state.
-/

namespace FinanceApp

/-- An entry of `data["expenses"]`: `{"date": ..., "description": ..., "amount": ...}`. -/
structure Expense where
  date : String
  description : String
  amount : ℚ
deriving DecidableEq, Repr

/-- An entry of `data["debts"]`:
`{"date": ..., "person": ..., "amount": ..., "type": ...}` where the code
writes `"receivable"` or `"payable"` into the `type` field. -/
structure Debt where
  date : String
  person : String
  amount : ℚ
  type : String
deriving DecidableEq, Repr

/-- The whole persisted document `data`. -/
structure Doc where
  wallet_balance : ℚ
  expenses : List Expense
  debts : List Debt
deriving DecidableEq, Repr

/-- Error outcomes of an operation: a failed add-form guard
(`InvalidInput`) or an out-of-range index (`NotFound`, the Python
`IndexError`). -/
inductive Err where
  | NotFound
  | InvalidInput
deriving DecidableEq, Repr

/-- The `entry_form` submit handler, expense branch (lines 64–70): guarded by
`amount > 0 and desc`; appends the entry and decrements the wallet. -/
def addExpense (d : Doc) (date desc : String) (amount : ℚ) : Except Err Doc :=
  if 0 < amount ∧ desc ≠ "" then
    .ok { d with
          wallet_balance := d.wallet_balance - amount,
          expenses := d.expenses ++ [⟨date, desc, amount⟩] }
  else
    .error .InvalidInput

/-- The `entry_form` submit handler, debt branches (lines 71–80): same guard;
appends to `debts` with `type` `"receivable"` (owes-me branch) or
`"payable"`; the wallet is not touched. -/
def addDebt (d : Doc) (date person : String) (amount : ℚ) (receivable : Bool) :
    Except Err Doc :=
  if 0 < amount ∧ person ≠ "" then
    .ok { d with
          debts := d.debts ++
            [⟨date, person, amount, if receivable then "receivable" else "payable"⟩] }
  else
    .error .InvalidInput

/-- The `edit_form` submit handler, expense branch (lines 171–179): refunds
the old amount to the wallet, overwrites `description` and `amount` in
place (the `date` field is untouched), then deducts the new amount.
The edit form has no positivity/non-emptiness guard. -/
def editExpense (d : Doc) (idx : Nat) (newDesc : String) (newAmount : ℚ) :
    Except Err Doc :=
  match d.expenses[idx]? with
  | none => .error .NotFound
  | some e =>
      .ok { d with
            wallet_balance := d.wallet_balance + e.amount - newAmount,
            expenses := d.expenses.set idx
              { e with description := newDesc, amount := newAmount } }

/-- The `edit_form` submit handler, debt branch (lines 181–184): overwrites
`person` and `amount` in place; `type` and `date` are untouched and the
wallet is not changed. -/
def editDebt (d : Doc) (idx : Nat) (newPerson : String) (newAmount : ℚ) :
    Except Err Doc :=
  match d.debts[idx]? with
  | none => .error .NotFound
  | some e =>
      .ok { d with
            debts := d.debts.set idx
              { e with person := newPerson, amount := newAmount } }

/-- Confirm-Delete handler, expense branch (lines 194–198): refunds the
wallet by the removed entry's amount, then removes the entry. -/
def deleteExpense (d : Doc) (idx : Nat) : Except Err Doc :=
  match d.expenses[idx]? with
  | none => .error .NotFound
  | some e =>
      .ok { d with
            wallet_balance := d.wallet_balance + e.amount,
            expenses := d.expenses.eraseIdx idx }

/-- Confirm-Delete handler, debt branch (lines 199–201): removes the
entry; no wallet effect. -/
def deleteDebt (d : Doc) (idx : Nat) : Except Err Doc :=
  match d.debts[idx]? with
  | none => .error .NotFound
  | some _ =>
      .ok { d with debts := d.debts.eraseIdx idx }

/-- The six ledger mutations, as a single operation type. -/
inductive Op where
  | addExpense (date desc : String) (amount : ℚ)
  | editExpense (idx : Nat) (desc : String) (amount : ℚ)
  | deleteExpense (idx : Nat)
  | addDebt (date person : String) (amount : ℚ) (receivable : Bool)
  | editDebt (idx : Nat) (person : String) (amount : ℚ)
  | deleteDebt (idx : Nat)
deriving DecidableEq, Repr

/-- A failed operation leaves the document unchanged: in the app a failed
add-guard skips the mutation and an `IndexError` aborts the script run
before `save_data`, so the persisted document is untouched either way. -/
def runOr (d : Doc) : Except Err Doc → Doc
  | .ok d2 => d2
  | .error _ => d

/-- Apply one operation, totalised: failures leave the document unchanged. -/
def Op.apply (d : Doc) : Op → Doc
  | .addExpense date desc a => runOr d (FinanceApp.addExpense d date desc a)
  | .editExpense idx desc a => runOr d (FinanceApp.editExpense d idx desc a)
  | .deleteExpense idx => runOr d (FinanceApp.deleteExpense d idx)
  | .addDebt date person a r => runOr d (FinanceApp.addDebt d date person a r)
  | .editDebt idx person a => runOr d (FinanceApp.editDebt d idx person a)
  | .deleteDebt idx => runOr d (FinanceApp.deleteDebt d idx)

/-- Apply a sequence of operations in order. -/
def applyOps (d : Doc) (ops : List Op) : Doc :=
  ops.foldl Op.apply d

/-- Whether the operation addresses the expense list. -/
def Op.isExpenseOp : Op → Bool
  | .addExpense .. => true
  | .editExpense .. => true
  | .deleteExpense .. => true
  | _ => false

/-- Whether the operation addresses the debt list. -/
def Op.isDebtOp : Op → Bool
  | .addDebt .. => true
  | .editDebt .. => true
  | .deleteDebt .. => true
  | _ => false

/-- Line 98: `total_spent = sum(item['amount'] for item in expenses)` . -/
def total_spent (expenses : List Expense) : ℚ :=
  (expenses.map Expense.amount).sum

/-- Line 99: `to_receive = sum(item['amount'] for item in debts if item['type'] == 'receivable')`
. -/
def to_receive (debts : List Debt) : ℚ :=
  ((debts.filter (fun it => it.type == "receivable")).map Debt.amount).sum

/-- Line 100: `to_pay = sum(item['amount'] for item in debts if item['type'] == 'payable')`
. -/
def to_pay (debts : List Debt) : ℚ :=
  ((debts.filter (fun it => it.type == "payable")).map Debt.amount).sum

/-- Line 101: `net_position = (wallet + to_receive) - to_pay` . -/
def net_position (d : Doc) : ℚ :=
  (d.wallet_balance + to_receive d.debts) - to_pay d.debts

/-- The four derived dashboard numbers. -/
structure Totals where
  totalSpent : ℚ
  toReceive : ℚ
  toPay : ℚ
  netPosition : ℚ
deriving DecidableEq, Repr

/-- The dashboard aggregation (lines 98–101) as one pure function of the
current document. -/
def summarize (d : Doc) : Totals :=
  { totalSpent := total_spent d.expenses
    toReceive := to_receive d.debts
    toPay := to_pay d.debts
    netPosition := net_position d }

/-- The default document `{"wallet_balance": 0.0, "expenses": [], "debts": []}`
(lines 15 and 23). -/
def default_data : Doc :=
  { wallet_balance := 0, expenses := [], debts := [] }

/-- The state of the JSON store as `load_data` observes it: the file is
missing, or it exists and `json.load` either fails with
`JSONDecodeError` (`corrupt`) or yields a document. -/
inductive StoreState where
  | missing
  | corrupt
  | stored (d : Doc)
deriving DecidableEq, Repr

/-- Function `load_data` (lines 13–23): a missing file yields (and writes) the
default document; a `JSONDecodeError` yields the default document; a
parsed document is returned as is. -/
def load_data : StoreState → Doc
  | .missing => default_data
  | .corrupt => default_data
  | .stored d => d


/-! Helper lemmas about sums over `List.set` and `List.eraseIdx`. -/

theorem sum_map_set {α : Type} (f : α → ℚ) :
    ∀ (l : List α) (i : Nat) (b : α) (h : i < l.length),
      ((l.set i b).map f).sum = (l.map f).sum - f l[i] + f b
  | _ :: t, 0, b, _ => by
      simp [List.set]
      ring
  | a :: t, i + 1, b, h => by
      simp only [List.set, List.map_cons, List.sum_cons, List.getElem_cons_succ]
      rw [sum_map_set f t i b (Nat.lt_of_succ_lt_succ h)]
      ring
  | [], _, _, h => absurd h (Nat.not_lt_zero _)

theorem sum_map_eraseIdx {α : Type} (f : α → ℚ) :
    ∀ (l : List α) (i : Nat) (h : i < l.length),
      ((l.eraseIdx i).map f).sum = (l.map f).sum - f l[i]
  | _ :: t, 0, _ => by
      simp [List.eraseIdx]
  | a :: t, i + 1, h => by
      simp only [List.eraseIdx, List.map_cons, List.sum_cons, List.getElem_cons_succ]
      rw [sum_map_eraseIdx f t i (Nat.lt_of_succ_lt_succ h)]
      ring
  | [], _, h => absurd h (Nat.not_lt_zero _)

/-- One expense-directed operation preserves `wallet_balance + total_spent`. -/
theorem wallet_plus_spent_apply (d : Doc) (op : Op) (h : op.isExpenseOp = true) :
    (op.apply d).wallet_balance + total_spent (op.apply d).expenses
      = d.wallet_balance + total_spent d.expenses := by
  cases op with
  | addExpense date desc a =>
      by_cases hg : 0 < a ∧ desc ≠ ""
      · simp [Op.apply, FinanceApp.addExpense, hg, runOr, total_spent]
      · simp [Op.apply, FinanceApp.addExpense, hg, runOr]
  | editExpense idx desc a =>
      rcases Nat.lt_or_ge idx d.expenses.length with hlt | hge
      · have hsome : d.expenses[idx]? = some d.expenses[idx] :=
          List.getElem?_eq_getElem hlt
        simp only [Op.apply, FinanceApp.editExpense, hsome, runOr]
        unfold total_spent
        rw [sum_map_set _ _ _ _ hlt]
        ring
      · have hnone : d.expenses[idx]? = none := List.getElem?_eq_none hge
        simp [Op.apply, FinanceApp.editExpense, hnone, runOr]
  | deleteExpense idx =>
      rcases Nat.lt_or_ge idx d.expenses.length with hlt | hge
      · have hsome : d.expenses[idx]? = some d.expenses[idx] :=
          List.getElem?_eq_getElem hlt
        simp only [Op.apply, FinanceApp.deleteExpense, hsome, runOr]
        unfold total_spent
        rw [sum_map_eraseIdx _ _ _ hlt]
        ring
      · have hnone : d.expenses[idx]? = none := List.getElem?_eq_none hge
        simp [Op.apply, FinanceApp.deleteExpense, hnone, runOr]
  | addDebt date person a r => simp [Op.isExpenseOp] at h
  | editDebt idx person a => simp [Op.isExpenseOp] at h
  | deleteDebt idx => simp [Op.isExpenseOp] at h

/-- One debt-directed operation changes neither the wallet nor the expense list. -/
theorem debt_op_frame (d : Doc) (op : Op) (h : op.isDebtOp = true) :
    (op.apply d).wallet_balance = d.wallet_balance ∧
    (op.apply d).expenses = d.expenses := by
  cases op with
  | addDebt date person a r =>
      by_cases hg : 0 < a ∧ person ≠ ""
      · simp [Op.apply, FinanceApp.addDebt, hg, runOr]
      · simp [Op.apply, FinanceApp.addDebt, hg, runOr]
  | editDebt idx person a =>
      cases hq : d.debts[idx]? with
      | none => simp [Op.apply, FinanceApp.editDebt, hq, runOr]
      | some e => simp [Op.apply, FinanceApp.editDebt, hq, runOr]
  | deleteDebt idx =>
      cases hq : d.debts[idx]? with
      | none => simp [Op.apply, FinanceApp.deleteDebt, hq, runOr]
      | some e => simp [Op.apply, FinanceApp.deleteDebt, hq, runOr]
  | addExpense date desc a => simp [Op.isDebtOp] at h
  | editExpense idx desc a => simp [Op.isDebtOp] at h
  | deleteExpense idx => simp [Op.isDebtOp] at h


/-! Claim C1: wallet conservation under expense-directed operations. -/

/-- C1 (counterexample): the claim as stated fails for an initial document
whose expense list is non-empty.  With initial document
`{wallet_balance = 0, expenses = [⟨"2024-01-01", "Lunch", 1⟩], debts = []}`
and the empty operation sequence, the final wallet balance is `0`, while
"initial balance minus the sum of current expense amounts" is `-1`. -/
theorem wallet_conservation_counterexample :
    ¬ ((applyOps ⟨0, [⟨"2024-01-01", "Lunch", 1⟩], []⟩ []).wallet_balance
        = (0 : ℚ)
          - total_spent (applyOps ⟨0, [⟨"2024-01-01", "Lunch", 1⟩], []⟩ []).expenses) := by
  simp [applyOps, total_spent]

/-- C1 (amended): for every initial document and every sequence of
`addExpense` / `editExpense` / `deleteExpense` operations, the final
`wallet_balance` equals the initial `wallet_balance` plus the initial sum
of expense amounts minus the sum of the amounts of the expenses currently
in the list; equivalently, `wallet_balance + total_spent` is invariant.
(This needs no validity assumption on the indices: an out-of-range edit
or delete leaves the document unchanged.) -/
theorem wallet_conservation (d : Doc) (ops : List Op)
    (h : ∀ op ∈ ops, op.isExpenseOp = true) :
    (applyOps d ops).wallet_balance
      = d.wallet_balance + total_spent d.expenses
        - total_spent (applyOps d ops).expenses := by
  induction ops generalizing d with
  | nil =>
      simp [applyOps]
  | cons op ops ih =>
      have hstep := wallet_plus_spent_apply d op (h op (List.mem_cons_self op ops))
      have htail := ih (Op.apply d op) (fun o ho => h o (List.mem_cons_of_mem op ho))
      have happ : applyOps d (op :: ops) = applyOps (Op.apply d op) ops := rfl
      rw [happ, htail]
      linarith

/-- C1 (witness): the amended conservation law at a concrete document and
operation sequence (the spec §8 example scenario). -/
theorem wallet_conservation_witness :
    (applyOps ⟨1000, [], []⟩
        [.addExpense "2024-01-01" "Lunch" 200,
         .editExpense 0 "Lunch" 300,
         .deleteExpense 0]).wallet_balance
      = (⟨1000, [], []⟩ : Doc).wallet_balance
        + total_spent (⟨1000, [], []⟩ : Doc).expenses
        - total_spent (applyOps ⟨1000, [], []⟩
            [.addExpense "2024-01-01" "Lunch" 200,
             .editExpense 0 "Lunch" 300,
             .deleteExpense 0]).expenses :=
  wallet_conservation ⟨1000, [], []⟩
    [.addExpense "2024-01-01" "Lunch" 200,
     .editExpense 0 "Lunch" 300,
     .deleteExpense 0]
    (by decide)

/-! Claim C2: debt-directed operations never change the wallet. -/

/-- C2: no sequence of `addDebt` / `editDebt` / `deleteDebt` operations
changes `wallet_balance`: after the sequence it equals its value before. -/
theorem debt_neutrality (d : Doc) (ops : List Op)
    (h : ∀ op ∈ ops, op.isDebtOp = true) :
    (applyOps d ops).wallet_balance = d.wallet_balance := by
  induction ops generalizing d with
  | nil => rfl
  | cons op ops ih =>
      have hstep := (debt_op_frame d op (h op (List.mem_cons_self op ops))).1
      have htail := ih (Op.apply d op) (fun o ho => h o (List.mem_cons_of_mem op ho))
      have happ : applyOps d (op :: ops) = applyOps (Op.apply d op) ops := rfl
      rw [happ, htail, hstep]

/-- C2 (witness): debt neutrality at a concrete document and sequence. -/
theorem debt_neutrality_witness :
    (applyOps ⟨800, [], []⟩
        [.addDebt "2024-01-02" "Ravi" 500 true,
         .editDebt 0 "Ravi" 450,
         .addDebt "2024-01-03" "Sam" 100 false,
         .deleteDebt 1]).wallet_balance
      = (⟨800, [], []⟩ : Doc).wallet_balance :=
  debt_neutrality ⟨800, [], []⟩
    [.addDebt "2024-01-02" "Ravi" 500 true,
     .editDebt 0 "Ravi" 450,
     .addDebt "2024-01-03" "Sam" 100 false,
     .deleteDebt 1]
    (by decide)


/-! Claim C3: `summarize` computes the spec formulas. -/

/-- Modelled from the spec: `totalSpent = Σ amount over expenses`,
written as a direct fold, independently of the code's generator
expression. -/
def spec_totalSpent (d : Doc) : ℚ :=
  d.expenses.foldr (fun e acc => e.amount + acc) 0

/-- Modelled from the spec: `toReceive = Σ amount over debts where
kind = Receivable`. -/
def spec_toReceive (d : Doc) : ℚ :=
  d.debts.foldr (fun e acc => if e.type = "receivable" then e.amount + acc else acc) 0

/-- Modelled from the spec: `toPay = Σ amount over debts where
kind = Payable`. -/
def spec_toPay (d : Doc) : ℚ :=
  d.debts.foldr (fun e acc => if e.type = "payable" then e.amount + acc else acc) 0

theorem sum_map_eq_foldr (l : List Expense) :
    (l.map Expense.amount).sum = l.foldr (fun e acc => e.amount + acc) 0 := by
  induction l with
  | nil => rfl
  | cons a t ih => simp [ih]

theorem sum_filter_eq_foldr (p : Debt → Bool) (l : List Debt) :
    ((l.filter p).map Debt.amount).sum
      = l.foldr (fun e acc => if p e then e.amount + acc else acc) 0 := by
  induction l with
  | nil => rfl
  | cons a t ih =>
      by_cases h : p a <;> simp [List.filter_cons, h, ih]

/-- C3: `summarize` is a pure function of the current document computing
exactly the four spec formulas: `totalSpent` is the sum of `amount` over
all expenses, `toReceive` the sum over debts of kind `"receivable"`,
`toPay` the sum over debts of kind `"payable"`, and
`netPosition = (wallet_balance + toReceive) - toPay`.  Being a function
of the document, it mutates nothing. -/
theorem summarize_spec (d : Doc) :
    summarize d =
      { totalSpent := spec_totalSpent d,
        toReceive := spec_toReceive d,
        toPay := spec_toPay d,
        netPosition := (d.wallet_balance + spec_toReceive d) - spec_toPay d } := by
  have h1 : total_spent d.expenses = spec_totalSpent d :=
    sum_map_eq_foldr d.expenses
  have h2 : to_receive d.debts = spec_toReceive d := by
    unfold to_receive spec_toReceive
    rw [sum_filter_eq_foldr]
    congr 1
    funext e acc
    by_cases h : e.type = "receivable" <;> simp [h]
  have h3 : to_pay d.debts = spec_toPay d := by
    unfold to_pay spec_toPay
    rw [sum_filter_eq_foldr]
    congr 1
    funext e acc
    by_cases h : e.type = "payable" <;> simp [h]
  simp [summarize, net_position, h1, h2, h3]

/-! Claim C4: the effect of a valid `editExpense`. -/

/-- C4: at a valid index, `editExpense` succeeds, changes the wallet by
exactly `oldAmount - newAmount`, overwrites the entry's description and
amount (keeping its date), keeps the expense list length, leaves other
expense entries in place, and does not touch the debts. -/
theorem editExpense_effect (d : Doc) (idx : Nat) (newDesc : String) (newAmount : ℚ)
    (h : idx < d.expenses.length) :
    ∃ d2, editExpense d idx newDesc newAmount = .ok d2 ∧
      d2.wallet_balance - d.wallet_balance = (d.expenses[idx]).amount - newAmount ∧
      d2.expenses.length = d.expenses.length ∧
      d2.expenses[idx]? = some ⟨(d.expenses[idx]).date, newDesc, newAmount⟩ ∧
      (∀ j, j ≠ idx → d2.expenses[j]? = d.expenses[j]?) ∧
      d2.debts = d.debts := by
  have hsome : d.expenses[idx]? = some d.expenses[idx] :=
    List.getElem?_eq_getElem h
  refine ⟨{ d with
      wallet_balance := d.wallet_balance + (d.expenses[idx]).amount - newAmount,
      expenses := d.expenses.set idx
        ⟨(d.expenses[idx]).date, newDesc, newAmount⟩ }, ?_, ?_, ?_, ?_, ?_, rfl⟩
  · rw [editExpense, hsome]
  · ring
  · simp
  · simp [List.getElem?_set_self h]
  · intro j hj
    simp [List.getElem?_set_ne (fun hx => hj hx.symm)]

/-- C4 (witness): the spec §8 example — editing expense 0 from amount 200
to 300 on `{wallet 800, expenses [Lunch 200]}`. -/
theorem editExpense_effect_witness :
    ∃ d2, editExpense ⟨800, [⟨"2024-01-01", "Lunch", 200⟩], []⟩ 0 "Lunch" 300 = .ok d2 ∧
      d2.wallet_balance - (⟨800, [⟨"2024-01-01", "Lunch", 200⟩], []⟩ : Doc).wallet_balance
        = ((⟨800, [⟨"2024-01-01", "Lunch", 200⟩], []⟩ : Doc).expenses[0]).amount - 300 ∧
      d2.expenses.length
        = (⟨800, [⟨"2024-01-01", "Lunch", 200⟩], []⟩ : Doc).expenses.length ∧
      d2.expenses[0]?
        = some ⟨((⟨800, [⟨"2024-01-01", "Lunch", 200⟩], []⟩ : Doc).expenses[0]).date,
                "Lunch", 300⟩ ∧
      (∀ j, j ≠ 0 →
        d2.expenses[j]?
          = (⟨800, [⟨"2024-01-01", "Lunch", 200⟩], []⟩ : Doc).expenses[j]?) ∧
      d2.debts = (⟨800, [⟨"2024-01-01", "Lunch", 200⟩], []⟩ : Doc).debts :=
  editExpense_effect ⟨800, [⟨"2024-01-01", "Lunch", 200⟩], []⟩ 0 "Lunch" 300
    (by decide)


/-! Claim C5: out-of-range edits and deletes fail without changing the
document. -/

/-- C5: with an index outside the addressed list's current bounds, each
edit/delete operation returns `NotFound`, and the totalised application
leaves the document (wallet, expenses and debts alike) unchanged. -/
theorem out_of_range_not_found (d : Doc) (idx : Nat) (s : String) (a : ℚ) :
    (d.expenses.length ≤ idx →
      editExpense d idx s a = .error .NotFound ∧
      deleteExpense d idx = .error .NotFound ∧
      Op.apply d (.editExpense idx s a) = d ∧
      Op.apply d (.deleteExpense idx) = d) ∧
    (d.debts.length ≤ idx →
      editDebt d idx s a = .error .NotFound ∧
      deleteDebt d idx = .error .NotFound ∧
      Op.apply d (.editDebt idx s a) = d ∧
      Op.apply d (.deleteDebt idx) = d) := by
  constructor
  · intro h
    have hnone : d.expenses[idx]? = none := List.getElem?_eq_none h
    refine ⟨?_, ?_, ?_, ?_⟩ <;>
      simp [editExpense, deleteExpense, Op.apply, runOr, hnone]
  · intro h
    have hnone : d.debts[idx]? = none := List.getElem?_eq_none h
    refine ⟨?_, ?_, ?_, ?_⟩ <;>
      simp [editDebt, deleteDebt, Op.apply, runOr, hnone]

/-- C5 (witness): index 1 is out of bounds for a document with one
expense and one debt; all four operations fail and change nothing. -/
theorem out_of_range_not_found_witness :
    (editExpense ⟨5, [⟨"2024-01-01", "Lunch", 2⟩], [⟨"2024-01-02", "Ravi", 3, "receivable"⟩]⟩
        1 "x" 7 = .error .NotFound ∧
      deleteExpense ⟨5, [⟨"2024-01-01", "Lunch", 2⟩], [⟨"2024-01-02", "Ravi", 3, "receivable"⟩]⟩
        1 = .error .NotFound ∧
      Op.apply ⟨5, [⟨"2024-01-01", "Lunch", 2⟩], [⟨"2024-01-02", "Ravi", 3, "receivable"⟩]⟩
          (.editExpense 1 "x" 7)
        = ⟨5, [⟨"2024-01-01", "Lunch", 2⟩], [⟨"2024-01-02", "Ravi", 3, "receivable"⟩]⟩ ∧
      Op.apply ⟨5, [⟨"2024-01-01", "Lunch", 2⟩], [⟨"2024-01-02", "Ravi", 3, "receivable"⟩]⟩
          (.deleteExpense 1)
        = ⟨5, [⟨"2024-01-01", "Lunch", 2⟩], [⟨"2024-01-02", "Ravi", 3, "receivable"⟩]⟩) ∧
    (editDebt ⟨5, [⟨"2024-01-01", "Lunch", 2⟩], [⟨"2024-01-02", "Ravi", 3, "receivable"⟩]⟩
        1 "x" 7 = .error .NotFound ∧
      deleteDebt ⟨5, [⟨"2024-01-01", "Lunch", 2⟩], [⟨"2024-01-02", "Ravi", 3, "receivable"⟩]⟩
        1 = .error .NotFound ∧
      Op.apply ⟨5, [⟨"2024-01-01", "Lunch", 2⟩], [⟨"2024-01-02", "Ravi", 3, "receivable"⟩]⟩
          (.editDebt 1 "x" 7)
        = ⟨5, [⟨"2024-01-01", "Lunch", 2⟩], [⟨"2024-01-02", "Ravi", 3, "receivable"⟩]⟩ ∧
      Op.apply ⟨5, [⟨"2024-01-01", "Lunch", 2⟩], [⟨"2024-01-02", "Ravi", 3, "receivable"⟩]⟩
          (.deleteDebt 1)
        = ⟨5, [⟨"2024-01-01", "Lunch", 2⟩], [⟨"2024-01-02", "Ravi", 3, "receivable"⟩]⟩) :=
  ⟨(out_of_range_not_found
      ⟨5, [⟨"2024-01-01", "Lunch", 2⟩], [⟨"2024-01-02", "Ravi", 3, "receivable"⟩]⟩
      1 "x" 7).1 (by decide),
   (out_of_range_not_found
      ⟨5, [⟨"2024-01-01", "Lunch", 2⟩], [⟨"2024-01-02", "Ravi", 3, "receivable"⟩]⟩
      1 "x" 7).2 (by decide)⟩

/-! Claim C6: invalid adds are rejected before any mutation. -/

/-- C6: an add whose amount is not strictly positive or whose
description/person string is empty fails with `InvalidInput`, and the
totalised application leaves the document entirely unchanged. -/
theorem invalid_add_rejected (d : Doc) (date desc : String) (a : ℚ) (r : Bool)
    (h : a ≤ 0 ∨ desc = "") :
    addExpense d date desc a = .error .InvalidInput ∧
    addDebt d date desc a r = .error .InvalidInput ∧
    Op.apply d (.addExpense date desc a) = d ∧
    Op.apply d (.addDebt date desc a r) = d := by
  have hg : ¬ (0 < a ∧ desc ≠ "") := by
    rcases h with h | h
    · exact fun hc => absurd hc.1 (not_lt.mpr h)
    · exact fun hc => hc.2 h
  refine ⟨?_, ?_, ?_, ?_⟩ <;>
    simp [addExpense, addDebt, Op.apply, runOr, hg]

/-- C6 (witness): adding with amount `0` is rejected and mutates nothing. -/
theorem invalid_add_rejected_witness :
    addExpense ⟨9, [], []⟩ "2024-01-01" "Lunch" 0 = .error .InvalidInput ∧
    addDebt ⟨9, [], []⟩ "2024-01-01" "Lunch" 0 true = .error .InvalidInput ∧
    Op.apply ⟨9, [], []⟩ (.addExpense "2024-01-01" "Lunch" 0) = ⟨9, [], []⟩ ∧
    Op.apply ⟨9, [], []⟩ (.addDebt "2024-01-01" "Lunch" 0 true) = ⟨9, [], []⟩ :=
  invalid_add_rejected ⟨9, [], []⟩ "2024-01-01" "Lunch" 0 true (Or.inl (by decide))


/-! Claim C7: strict positivity of stored amounts is preserved. -/

/-- All stored amounts in the document are strictly positive. -/
def allPos (d : Doc) : Prop :=
  (∀ e ∈ d.expenses, 0 < e.amount) ∧ (∀ e ∈ d.debts, 0 < e.amount)

/-- The spec's precondition on the inputs an operation accepts: edits
require the new amount to be strictly positive (`newAmount > 0`); the
adds carry their guard in the code itself, and deletes take no amount. -/
def Op.pre : Op → Prop
  | .editExpense _ _ a => 0 < a
  | .editDebt _ _ a => 0 < a
  | _ => True

/-- C7: starting from a document in which every stored amount is
strictly positive, applying any single operation (under the spec's
precondition on its inputs) yields a document in which every stored
amount is still strictly positive. -/
theorem positivity_preserved (d : Doc) (op : Op)
    (hd : allPos d) (hop : op.pre) :
    allPos (op.apply d) := by
  obtain ⟨hexp, hdebt⟩ := hd
  cases op with
  | addExpense date desc a =>
      by_cases hg : 0 < a ∧ desc ≠ ""
      · have happ : Op.apply d (.addExpense date desc a)
            = { d with wallet_balance := d.wallet_balance - a,
                       expenses := d.expenses ++ [⟨date, desc, a⟩] } := by
          simp [Op.apply, FinanceApp.addExpense, hg, runOr]
        rw [happ]
        refine ⟨?_, hdebt⟩
        intro e he
        rcases List.mem_append.mp he with h | h
        · exact hexp e h
        · rcases List.mem_singleton.mp h with rfl
          exact hg.1
      · have happ : Op.apply d (.addExpense date desc a) = d := by
          simp [Op.apply, FinanceApp.addExpense, hg, runOr]
        rw [happ]
        exact ⟨hexp, hdebt⟩
  | editExpense idx desc a =>
      cases hq : d.expenses[idx]? with
      | none =>
          have happ : Op.apply d (.editExpense idx desc a) = d := by
            simp [Op.apply, FinanceApp.editExpense, hq, runOr]
          rw [happ]
          exact ⟨hexp, hdebt⟩
      | some x =>
          have happ : Op.apply d (.editExpense idx desc a)
              = { d with wallet_balance := d.wallet_balance + x.amount - a,
                         expenses := d.expenses.set idx ⟨x.date, desc, a⟩ } := by
            simp [Op.apply, FinanceApp.editExpense, hq, runOr]
          rw [happ]
          refine ⟨?_, hdebt⟩
          intro e he
          rcases List.mem_or_eq_of_mem_set he with h | rfl
          · exact hexp e h
          · exact hop
  | deleteExpense idx =>
      cases hq : d.expenses[idx]? with
      | none =>
          have happ : Op.apply d (.deleteExpense idx) = d := by
            simp [Op.apply, FinanceApp.deleteExpense, hq, runOr]
          rw [happ]
          exact ⟨hexp, hdebt⟩
      | some x =>
          have happ : Op.apply d (.deleteExpense idx)
              = { d with wallet_balance := d.wallet_balance + x.amount,
                         expenses := d.expenses.eraseIdx idx } := by
            simp [Op.apply, FinanceApp.deleteExpense, hq, runOr]
          rw [happ]
          refine ⟨?_, hdebt⟩
          intro e he
          exact hexp e (List.mem_of_mem_eraseIdx he)
  | addDebt date person a r =>
      by_cases hg : 0 < a ∧ person ≠ ""
      · have happ : Op.apply d (.addDebt date person a r)
            = { d with debts := d.debts ++
                [⟨date, person, a, if r then "receivable" else "payable"⟩] } := by
          simp [Op.apply, FinanceApp.addDebt, hg, runOr]
        rw [happ]
        refine ⟨hexp, ?_⟩
        intro e he
        rcases List.mem_append.mp he with h | h
        · exact hdebt e h
        · rcases List.mem_singleton.mp h with rfl
          exact hg.1
      · have happ : Op.apply d (.addDebt date person a r) = d := by
          simp [Op.apply, FinanceApp.addDebt, hg, runOr]
        rw [happ]
        exact ⟨hexp, hdebt⟩
  | editDebt idx person a =>
      cases hq : d.debts[idx]? with
      | none =>
          have happ : Op.apply d (.editDebt idx person a) = d := by
            simp [Op.apply, FinanceApp.editDebt, hq, runOr]
          rw [happ]
          exact ⟨hexp, hdebt⟩
      | some x =>
          have happ : Op.apply d (.editDebt idx person a)
              = { d with debts := d.debts.set idx ⟨x.date, person, a, x.type⟩ } := by
            simp [Op.apply, FinanceApp.editDebt, hq, runOr]
          rw [happ]
          refine ⟨hexp, ?_⟩
          intro e he
          rcases List.mem_or_eq_of_mem_set he with h | rfl
          · exact hdebt e h
          · exact hop
  | deleteDebt idx =>
      cases hq : d.debts[idx]? with
      | none =>
          have happ : Op.apply d (.deleteDebt idx) = d := by
            simp [Op.apply, FinanceApp.deleteDebt, hq, runOr]
          rw [happ]
          exact ⟨hexp, hdebt⟩
      | some x =>
          have happ : Op.apply d (.deleteDebt idx)
              = { d with debts := d.debts.eraseIdx idx } := by
            simp [Op.apply, FinanceApp.deleteDebt, hq, runOr]
          rw [happ]
          refine ⟨hexp, ?_⟩
          intro e he
          exact hdebt e (List.mem_of_mem_eraseIdx he)

/-- C7 (witness): positivity is preserved at a concrete document by a
concrete edit with a positive new amount. -/
theorem positivity_preserved_witness :
    allPos (Op.apply
      ⟨100, [⟨"2024-01-01", "Lunch", 200⟩], [⟨"2024-01-02", "Ravi", 500, "receivable"⟩]⟩
      (.editExpense 0 "Dinner" 300)) :=
  positivity_preserved
    ⟨100, [⟨"2024-01-01", "Lunch", 200⟩], [⟨"2024-01-02", "Ravi", 500, "receivable"⟩]⟩
    (.editExpense 0 "Dinner" 300)
    (by constructor <;> simp) (by simp [Op.pre])

/-! Claim C8: `load_data` recovers a default document. -/

/-- C8: when the store file is missing, or its content fails to parse
(`json.JSONDecodeError`), `load_data` returns the fresh empty default
document `{wallet_balance = 0, expenses = [], debts = []}`; being a
total function of the store state it never fails, and a successfully
parsed document is returned as is. -/
theorem load_data_recovery :
    load_data .missing = { wallet_balance := 0, expenses := [], debts := [] } ∧
    load_data .corrupt = { wallet_balance := 0, expenses := [], debts := [] } ∧
    ∀ d : Doc, load_data (.stored d) = d :=
  ⟨rfl, rfl, fun _ => rfl⟩

/-! Claim C9: `editDebt` changes only `person` and `amount`. -/

/-- C9: at a valid index, `editDebt` succeeds and overwrites exactly the
addressed entry's `person` and `amount`; that entry's `type` (kind) and
`date` are unchanged, every other debt entry is unchanged, and the
wallet and the expense list are untouched. -/
theorem editDebt_effect (d : Doc) (idx : Nat) (newPerson : String) (newAmount : ℚ)
    (h : idx < d.debts.length) :
    ∃ d2, editDebt d idx newPerson newAmount = .ok d2 ∧
      d2.debts[idx]? = some ⟨(d.debts[idx]).date, newPerson, newAmount,
                             (d.debts[idx]).type⟩ ∧
      (∀ j, j ≠ idx → d2.debts[j]? = d.debts[j]?) ∧
      d2.debts.length = d.debts.length ∧
      d2.expenses = d.expenses ∧
      d2.wallet_balance = d.wallet_balance := by
  have hsome : d.debts[idx]? = some d.debts[idx] :=
    List.getElem?_eq_getElem h
  refine ⟨{ d with
      debts := d.debts.set idx
        ⟨(d.debts[idx]).date, newPerson, newAmount, (d.debts[idx]).type⟩ },
    ?_, ?_, ?_, ?_, rfl, rfl⟩
  · rw [editDebt, hsome]
  · simp [List.getElem?_set_self h]
  · intro j hj
    simp [List.getElem?_set_ne (fun hx => hj hx.symm)]
  · simp

/-- C9 (witness): editing debt 0's person and amount keeps its kind
`"receivable"` and its date. -/
theorem editDebt_effect_witness :
    ∃ d2, editDebt ⟨7, [], [⟨"2024-01-02", "Ravi", 500, "receivable"⟩]⟩ 0 "Raj" 450
        = .ok d2 ∧
      d2.debts[0]?
        = some ⟨((⟨7, [], [⟨"2024-01-02", "Ravi", 500, "receivable"⟩]⟩ : Doc).debts[0]).date,
                "Raj", 450,
                ((⟨7, [], [⟨"2024-01-02", "Ravi", 500, "receivable"⟩]⟩ : Doc).debts[0]).type⟩ ∧
      (∀ j, j ≠ 0 →
        d2.debts[j]? = (⟨7, [], [⟨"2024-01-02", "Ravi", 500, "receivable"⟩]⟩ : Doc).debts[j]?) ∧
      d2.debts.length
        = (⟨7, [], [⟨"2024-01-02", "Ravi", 500, "receivable"⟩]⟩ : Doc).debts.length ∧
      d2.expenses = (⟨7, [], [⟨"2024-01-02", "Ravi", 500, "receivable"⟩]⟩ : Doc).expenses ∧
      d2.wallet_balance
        = (⟨7, [], [⟨"2024-01-02", "Ravi", 500, "receivable"⟩]⟩ : Doc).wallet_balance :=
  editDebt_effect ⟨7, [], [⟨"2024-01-02", "Ravi", 500, "receivable"⟩]⟩ 0 "Raj" 450
    (by decide)

/-! Claim C10: debts of an unknown kind are ignored by the summary. -/

/-- C10: a debt entry whose `type` is neither `"receivable"` nor
`"payable"` contributes to neither `to_receive` nor `to_pay`, hence has
no effect on `net_position`; consequently `to_receive + to_pay` can be
strictly below the sum of all debt amounts, as the concrete two-entry
debt list in the second conjunct shows. -/
theorem unknown_kind_ignored :
    (∀ (l₁ l₂ : List Debt) (e : Debt),
      e.type ≠ "receivable" → e.type ≠ "payable" →
      to_receive (l₁ ++ e :: l₂) = to_receive (l₁ ++ l₂) ∧
      to_pay (l₁ ++ e :: l₂) = to_pay (l₁ ++ l₂) ∧
      ∀ (w : ℚ) (es : List Expense),
        net_position ⟨w, es, l₁ ++ e :: l₂⟩ = net_position ⟨w, es, l₁ ++ l₂⟩) ∧
    to_receive [⟨"2024-01-01", "A", 5, "receivable"⟩, ⟨"2024-01-02", "B", 3, "loan"⟩]
        + to_pay [⟨"2024-01-01", "A", 5, "receivable"⟩, ⟨"2024-01-02", "B", 3, "loan"⟩]
      < (([⟨"2024-01-01", "A", 5, "receivable"⟩, ⟨"2024-01-02", "B", 3, "loan"⟩] :
            List Debt).map Debt.amount).sum := by
  constructor
  · intro l₁ l₂ e h1 h2
    have hr : (e.type == "receivable") = false := by
      simpa using h1
    have hp : (e.type == "payable") = false := by
      simpa using h2
    have hto_r : to_receive (l₁ ++ e :: l₂) = to_receive (l₁ ++ l₂) := by
      simp [to_receive, List.filter_append, List.filter_cons, hr]
    have hto_p : to_pay (l₁ ++ e :: l₂) = to_pay (l₁ ++ l₂) := by
      simp [to_pay, List.filter_append, List.filter_cons, hp]
    exact ⟨hto_r, hto_p, fun w es => by simp [net_position, hto_r, hto_p]⟩
  · simp [to_receive, to_pay, List.filter_cons]

/-- C10 (witness): a single `"loan"`-typed entry contributes nothing to
either summary total or to the net position. -/
theorem unknown_kind_ignored_witness :
    to_receive ([] ++ (⟨"2024-01-02", "B", 3, "loan"⟩ : Debt) :: [])
        = to_receive ([] ++ []) ∧
    to_pay ([] ++ (⟨"2024-01-02", "B", 3, "loan"⟩ : Debt) :: [])
        = to_pay ([] ++ []) ∧
    ∀ (w : ℚ) (es : List Expense),
      net_position ⟨w, es, [] ++ (⟨"2024-01-02", "B", 3, "loan"⟩ : Debt) :: []⟩
        = net_position ⟨w, es, [] ++ []⟩ :=
  unknown_kind_ignored.1 [] [] ⟨"2024-01-02", "B", 3, "loan"⟩
    (by decide) (by decide)

end FinanceApp
